import Mathlib

/-!
Verification of the bundle-lib executor / sandbox-lifecycle specification.

The repository's executable sources available here are its test files; the
executor state machine (bind/unbind), the runtime sandbox lifecycle and the
state manager themselves are therefore modelled from the specification's
phase contract (spec.md sections 3, 4, 5, 7, 8), with the test files fixing
the concrete call order and argument conventions.  Every definition carrying
a doc comment beginning `Modelled from the spec:` names the missing source
part it stands in for.
-/

namespace BundleLib

/-- Lifecycle states of a status message, mirroring the Go constants
`StateNotYetStarted`, `StateInProgress`, `StateSucceeded`, `StateFailed`. -/
inductive State where
  | stateNotYetStarted
  | stateInProgress
  | stateSucceeded
  | stateFailed
deriving DecidableEq, Repr

/-- Immutable record `\x7bState, Error\x7d`; the error is the Go `error` value,
`none` standing for Go's `nil`. -/
structure StatusMessage where
  state : State
  error : Option String
deriving DecidableEq, Repr

/-- Executor configuration; `SkipCreateNS` reuses the existing namespace
instead of creating a sandbox namespace. -/
structure ExecutorConfig where
  skipCreateNS : Bool := false
deriving DecidableEq, Repr

/-- ServiceInstance context: target namespace and platform.  The Go field
`Namespace` is spelled `nspace` because `namespace` is a Lean keyword. -/
structure Context where
  nspace : String
  platform : String
deriving DecidableEq, Repr

/-- Bundle spec fields used by the executor. -/
structure Spec where
  id : String
  image : String
  fqName : String
  runtimeVer : Nat
  bindable : Bool
deriving DecidableEq, Repr

/-- A credentials mapping decoded from the action pod's JSON output payload,
kept as the ordered association list produced by the decoder. -/
abbrev Credentials := List (String × String)

/-- An active deployment of a bundle, restricted to the fields the executor
reads during a bind/unbind run. -/
structure ServiceInstance where
  id : String
  spec : Spec
  context : Context
  parameters : List (String × String) := []
deriving DecidableEq, Repr

/-- Per-run mutable state of one executor, mirroring the Go struct
`executor`: pod name, dashboard URL, extracted credentials (nullable),
last status message, skip-namespace-creation flag, and whether the internal
status channel is non-nil (`statusChanOpen`; the zero-value executor of
`executor\x7b\x7d` has a nil channel). -/
structure ExecutorState where
  podName : String := ""
  dashboardURL : String := ""
  extractedCredentials : Option Credentials := none
  lastStatus : StatusMessage := { state := State.stateNotYetStarted, error := none }
  skipCreateNS : Bool := false
  statusChanOpen : Bool := false
deriving DecidableEq, Repr

/-- Post-run accessor `ExtractedCredentials()`. -/
def ExtractedCredentials (e : ExecutorState) : Option Credentials :=
  e.extractedCredentials

/-- Post-run accessor `LastStatus()`. -/
def LastStatus (e : ExecutorState) : StatusMessage :=
  e.lastStatus

/-- Post-run accessor `PodName()`. -/
def PodName (e : ExecutorState) : String :=
  e.podName

/-- Post-run accessor `DashboardURL()`. -/
def DashboardURL (e : ExecutorState) : String :=
  e.dashboardURL

/-- Modelled from the spec: `NewExecutor` constructs a fresh per-action
executor with an open status channel and the configured skip flag. -/
def NewExecutor (cfg : ExecutorConfig) : ExecutorState :=
  { podName := ""
    dashboardURL := ""
    extractedCredentials := none
    lastStatus := { state := State.stateNotYetStarted, error := none }
    skipCreateNS := cfg.skipCreateNS
    statusChanOpen := true }

/-- The InProgress message emitted when an action starts. -/
def inProgressMsg : StatusMessage :=
  { state := State.stateInProgress, error := none }

/-- The terminal Failed message carrying the run's error. -/
def failedMsg (err : String) : StatusMessage :=
  { state := State.stateFailed, error := some err }

/-- The terminal Succeeded message. -/
def succeededMsg : StatusMessage :=
  { state := State.stateSucceeded, error := none }

/-- Modelled from the spec: `actionStarted` records InProgress as the last
status and, when the status channel is non-nil, sends it; returns the updated
executor and the messages actually sent on the channel. -/
def actionStarted (e : ExecutorState) : ExecutorState × List StatusMessage :=
  ({ e with lastStatus := inProgressMsg },
   if e.statusChanOpen then [inProgressMsg] else [])

/-- Modelled from the spec: `actionFinishedWithError` captures the error into
`lastStatus` and emits the terminal Failed message, guarding the send (and
the close) behind a nil-check of the status channel so that a zero-value
executor does not panic. -/
def actionFinishedWithError (e : ExecutorState) (err : String) :
    ExecutorState × List StatusMessage :=
  ({ e with lastStatus := failedMsg err },
   if e.statusChanOpen then [failedMsg err] else [])

/-- Modelled from the spec: `actionFinishedWithSuccess` records and emits the
terminal Succeeded message, guarding the channel send behind a nil-check. -/
def actionFinishedWithSuccess (e : ExecutorState) :
    ExecutorState × List StatusMessage :=
  ({ e with lastStatus := succeededMsg },
   if e.statusChanOpen then [succeededMsg] else [])

/-! ### JSON credential payload decoding

The action pod's output payload is, per the spec, a JSON object of
string-keyed credential values.  `buildExtractedCredentials` decodes such a
flat object; a malformed payload yields `none` (the terminal parse failure). -/

/-- Whitespace recognised by the payload decoder. -/
def isWsChar (c : Char) : Bool :=
  c = ' ' ∨ c = '\t' ∨ c = '\n' ∨ c = '\r'

/-- Drop leading whitespace characters. -/
def skipWs : List Char → List Char
  | [] => []
  | c :: rest => if isWsChar c then skipWs rest else c :: rest

/-- Read the body of a quoted string up to the closing quote, returning the
content and the remainder after the quote. -/
def takeStringChars : List Char → Option (List Char × List Char)
  | [] => none
  | c :: rest =>
    if c = '"' then some ([], rest)
    else
      match takeStringChars rest with
      | some (s, r) => some (c :: s, r)
      | none => none

/-- Parse a whitespace-preceded quoted JSON string. -/
def parseQuoted (cs : List Char) : Option (String × List Char) :=
  match skipWs cs with
  | '"' :: rest =>
    match takeStringChars rest with
    | some (s, r) => some (String.mk s, r)
    | none => none
  | _ => none

/-- Parse one or more `"key" : "value"` members separated by commas, up to
and including the closing brace; `fuel` bounds the recursion. -/
def parseMembers : Nat → List Char → Option (Credentials × List Char)
  | 0, _ => none
  | fuel + 1, cs =>
    match parseQuoted cs with
    | none => none
    | some (k, rest) =>
      match skipWs rest with
      | ':' :: rest2 =>
        match parseQuoted rest2 with
        | none => none
        | some (v, rest3) =>
          match skipWs rest3 with
          | ',' :: rest4 =>
            match parseMembers fuel rest4 with
            | some (ps, r) => some ((k, v) :: ps, r)
            | none => none
          | '\x7d' :: rest4 => some ([(k, v)], rest4)
          | _ => none
      | _ => none

/-- Decode a flat JSON object with string keys and string values. -/
def parseFlatObject (s : String) : Option Credentials :=
  match skipWs s.toList with
  | '\x7b' :: rest =>
    match skipWs rest with
    | '\x7d' :: rest2 => if (skipWs rest2).isEmpty then some [] else none
    | rest2 =>
      match parseMembers (rest2.length + 1) rest2 with
      | some (ps, r) => if (skipWs r).isEmpty then some ps else none
      | none => none
  | _ => none

/-- Modelled from the spec: `buildExtractedCredentials` parses the byte
payload returned by the provider's `ExtractCredentials` as JSON into a
credentials mapping; on parse failure it reports an error (`none`). -/
def buildExtractedCredentials (payload : String) : Option Credentials :=
  parseFlatObject payload

/-! ### The runtime provider double

A `MockRuntime` fixes the outcome of every blocking provider call an
executor run makes, exactly as the testify double in the test files does:
`Except.error` / `some` fields are the injected Go error returns, `Except.ok`
/ `none` the successful ones.  Quantifying over `MockRuntime` quantifies over
every combination of phase outcomes. -/

structure MockRuntime where
  /-- `CreateSandbox(...) → (serviceAccountName, location, error)`. -/
  createSandboxRes : Except String (String × String)
  /-- `CopySecretsToNamespace(...) → error`. -/
  copySecretsRes : Option String
  /-- `StateIsPresent(masterName) → (bool, error)`. -/
  stateIsPresentRes : Except String Bool
  /-- `RunBundle(...) → (ExecutionContext carrying the pod name, error)`. -/
  runBundleRes : Except String String
  /-- `WatchRunningBundle(...) → error`. -/
  watchRes : Option String
  /-- `CopyState(...) → error`. -/
  copyStateRes : Option String
  /-- `ExtractCredentials(...) → (byte payload, error)`. -/
  extractCredsRes : Except String String
  /-- `CreateExtractedCredential(bindingID, ...) → error`. -/
  createExtractedCredentialRes : Option String
  /-- `DeleteExtractedCredential(bindingID, ...) → error`. -/
  deleteExtractedCredentialRes : Option String
deriving Repr

/-- One observable step of an executor run: a provider call or a status
message sent on the executor's channel. -/
inductive Event where
  | createSandbox (execNs : String) (targets : List String)
  | copySecrets
  | stateIsPresent
  | runBundle
  | watch
  | copyState
  | extractCredentials
  | createExtractedCredential (bindingID : String)
  | deleteExtractedCredential (bindingID : String)
  | destroySandbox
  | emit (m : StatusMessage)
deriving DecidableEq, Repr

/-- The status message an event carries, if it is an emission. -/
def Event.emittedMsg : Event → Option StatusMessage
  | Event.emit m => some m
  | _ => none

/-- Whether an event is the sandbox teardown call. -/
def Event.isDestroy : Event → Bool
  | Event.destroySandbox => true
  | _ => false

/-- The outcome of one executor run: the ordered event trace and the final
executor state. -/
structure RunResult where
  events : List Event
  exec : ExecutorState
deriving DecidableEq, Repr

/-- The StatusMessage sequence delivered on the run's channel, in order. -/
def RunResult.messages (r : RunResult) : List StatusMessage :=
  r.events.filterMap Event.emittedMsg

/-- Modelled from the spec: when `SkipCreateNS` is false the executor derives
a fresh generated sandbox namespace name, distinct from the target
namespace. -/
def generatedNamespace (target : String) : String :=
  target ++ "-sandbox-gen"

/-- The execution namespace handed to `CreateSandbox`: the target namespace
itself under `SkipCreateNS`, a generated name otherwise. -/
def sandboxExecNs (cfg : ExecutorConfig) (si : ServiceInstance) : String :=
  if cfg.skipCreateNS then si.context.nspace else generatedNamespace si.context.nspace

/-- A run that fails after the sandbox exists: teardown is attempted, then
the terminal Failed message is emitted and captured into the executor. -/
def failDestroyRun (e : ExecutorState) (pre : List Event) (err : String) : RunResult :=
  { events := pre ++ [Event.destroySandbox, Event.emit (failedMsg err)]
    exec := { e with lastStatus := failedMsg err } }

/-- A run that fails before any sandbox exists: no teardown, the terminal
Failed message is emitted immediately. -/
def failNoSandboxRun (e : ExecutorState) (pre : List Event) (err : String) : RunResult :=
  { events := pre ++ [Event.emit (failedMsg err)]
    exec := { e with lastStatus := failedMsg err } }

/-- Modelled from the spec: the shared `executeApb` prefix of every action
run followed by the bind-specific phases, as one total function from the
provider double to the run's event trace and final executor state.  Phase
order and failure handling follow spec section 4.1: sandbox creation (failure
immediately terminal, no teardown), secret copy, state-presence check
(result observed, not branched on), pod submission, watch, state copy,
credential extraction and decoding, credential persistence (failure terminal
even though extraction succeeded); teardown always precedes the terminal
message once the sandbox exists, and only a fully successful run stores the
decoded credentials. -/
def bindRun (cfg : ExecutorConfig) (rt : MockRuntime) (si : ServiceInstance)
    (bindingID : String) : RunResult :=
  let e0 := { NewExecutor cfg with lastStatus := inProgressMsg }
  let ns := sandboxExecNs cfg si
  let p1 := [Event.emit inProgressMsg, Event.createSandbox ns [si.context.nspace]]
  match rt.createSandboxRes with
  | Except.error err => failNoSandboxRun e0 p1 ("failed to create sandbox: " ++ err)
  | Except.ok _ =>
    let p2 := p1 ++ [Event.copySecrets]
    match rt.copySecretsRes with
    | some err => failDestroyRun e0 p2 err
    | none =>
      let p3 := p2 ++ [Event.stateIsPresent]
      match rt.stateIsPresentRes with
      | Except.error err => failDestroyRun e0 p3 err
      | Except.ok _ =>
        let p4 := p3 ++ [Event.runBundle]
        match rt.runBundleRes with
        | Except.error err => failDestroyRun e0 p4 ("failed to run bundle: " ++ err)
        | Except.ok pn =>
          let e1 := { e0 with podName := pn }
          let p5 := p4 ++ [Event.watch]
          match rt.watchRes with
          | some err => failDestroyRun e1 p5 ("failed to watch bundle: " ++ err)
          | none =>
            let p6 := p5 ++ [Event.copyState]
            match rt.copyStateRes with
            | some err => failDestroyRun e1 p6 err
            | none =>
              let p7 := p6 ++ [Event.extractCredentials]
              match rt.extractCredsRes with
              | Except.error err => failDestroyRun e1 p7 err
              | Except.ok payload =>
                match buildExtractedCredentials payload with
                | none => failDestroyRun e1 p7 "malformed credential payload"
                | some creds =>
                  let p8 := p7 ++ [Event.createExtractedCredential bindingID]
                  match rt.createExtractedCredentialRes with
                  | some err => failDestroyRun e1 p8 err
                  | none =>
                    { events := p8 ++ [Event.destroySandbox, Event.emit succeededMsg]
                      exec := { e1 with
                        extractedCredentials := some creds
                        lastStatus := succeededMsg } }

/-- Modelled from the spec: the unbind run follows the same skeleton as bind
through the state-copy phase, then deletes the previously extracted
credential record; a deletion failure is logged but does not flip the
outcome, so both outcomes of `DeleteExtractedCredential` proceed to teardown
and a Succeeded terminal message. -/
def unbindRun (cfg : ExecutorConfig) (rt : MockRuntime) (si : ServiceInstance)
    (bindingID : String) : RunResult :=
  let e0 := { NewExecutor cfg with lastStatus := inProgressMsg }
  let ns := sandboxExecNs cfg si
  let p1 := [Event.emit inProgressMsg, Event.createSandbox ns [si.context.nspace]]
  match rt.createSandboxRes with
  | Except.error err => failNoSandboxRun e0 p1 ("failed to create sandbox: " ++ err)
  | Except.ok _ =>
    let p2 := p1 ++ [Event.copySecrets]
    match rt.copySecretsRes with
    | some err => failDestroyRun e0 p2 err
    | none =>
      let p3 := p2 ++ [Event.stateIsPresent]
      match rt.stateIsPresentRes with
      | Except.error err => failDestroyRun e0 p3 err
      | Except.ok _ =>
        let p4 := p3 ++ [Event.runBundle]
        match rt.runBundleRes with
        | Except.error err => failDestroyRun e0 p4 ("failed to run bundle: " ++ err)
        | Except.ok pn =>
          let e1 := { e0 with podName := pn }
          let p5 := p4 ++ [Event.watch]
          match rt.watchRes with
          | some err => failDestroyRun e1 p5 ("failed to watch bundle: " ++ err)
          | none =>
            let p6 := p5 ++ [Event.copyState]
            match rt.copyStateRes with
            | some err => failDestroyRun e1 p6 err
            | none =>
              let p7 := p6 ++ [Event.deleteExtractedCredential bindingID]
              match rt.deleteExtractedCredentialRes with
              | some _ =>
                { events := p7 ++ [Event.destroySandbox, Event.emit succeededMsg]
                  exec := { e1 with lastStatus := succeededMsg } }
              | none =>
                { events := p7 ++ [Event.destroySandbox, Event.emit succeededMsg]
                  exec := { e1 with lastStatus := succeededMsg } }

/-! ### The sandbox network-policy contract -/

/-- Whether the execution namespace is itself one of the target namespaces,
as the runtime test's `isNamespaceInTargets` computes. -/
def isNamespaceInTargets (ns : String) (targets : List String) : Bool :=
  targets.contains ns

/-- Modelled from the spec: when the execution namespace is not itself one of
the target namespaces, `CreateSandbox` applies a default-deny network policy
to each target namespace differing from the execution namespace; when it is
a target, no network policy is created. -/
def networkPoliciesFor (execNs : String) (targets : List String) : List String :=
  if isNamespaceInTargets execNs targets then []
  else targets.filter (fun t => t ≠ execNs)

/-- The cluster-side result of a successful `CreateSandbox` call: service
account name, location, and the namespaces that received a network policy. -/
structure SandboxResult where
  serviceAccount : String
  location : String
  policies : List String
deriving DecidableEq, Repr

/-- Modelled from the spec: a successful
`CreateSandbox(podName, executionNamespace, targetNamespaces, role, metadata)`
creates the service account bound to the role across the targets and the
network policies given by `networkPoliciesFor`. -/
def CreateSandbox (podName execNs : String) (targets : List String)
    (role : String) : SandboxResult :=
  { serviceAccount := podName ++ "-" ++ role
    location := execNs
    policies := networkPoliciesFor execNs targets }

/-! ### The state manager -/

/-- The state manager: a master namespace target and a mount location, as in
the runtime package's `state` struct. -/
structure StateManager where
  nsTarget : String
  mountLocation : String
deriving DecidableEq, Repr

/-- Modelled from the spec: the config-map-like key/value store backing the
state manager, keyed by (namespace, name). -/
abbrev ConfigMapStore := List ((String × String) × String)

/-- Look up the config map named `name` in namespace `ns`; `none` is the
not-found outcome of the underlying Get. -/
def getConfigMap (store : ConfigMapStore) (ns name : String) : Option String :=
  (store.find? (fun kv => kv.1 = (ns, name))).map (fun kv => kv.2)

/-- Modelled from the spec: `MasterName` derives the canonical state name
from the instance id (the test fixes `MasterName "foo" = "foo-state"`). -/
def MasterName (instanceID : String) : String :=
  instanceID ++ "-state"

/-- Modelled from the spec: `MasterNamespace` returns the manager's
configured master namespace. -/
def MasterNamespace (s : StateManager) : String :=
  s.nsTarget

/-- Modelled from the spec: `StateIsPresent(name)` gets the state blob named
`name` from the master namespace; a not-found lookup is reported as
`(false, nil)` rather than as an error, and a found blob as `(true, nil)`. -/
def StateIsPresent (s : StateManager) (store : ConfigMapStore) (name : String) :
    Except String Bool :=
  match getConfigMap store s.nsTarget name with
  | some _ => Except.ok true
  | none => Except.ok false

/-! ### Concrete fixtures mirroring the test files -/

/-- The Go zero-value `executor\x7b\x7d`: all fields at their zero values and a
nil status channel. -/
def zeroValueExecutor : ExecutorState := {}

/-- The service instance the bind/unbind tests construct: Context has
namespace `target` and platform `kubernetes`. -/
def siTest : ServiceInstance :=
  { id := "instance-1"
    spec := { id := "new-spec-id", image := "new-image", fqName := "new-fq-name",
              runtimeVer := 2, bindable := true }
    context := { nspace := "target", platform := "kubernetes" } }

/-- Default executor configuration. -/
def cfgDefault : ExecutorConfig := {}

/-- Configuration with `SkipCreateNS` set. -/
def cfgSkipNS : ExecutorConfig := { skipCreateNS := true }

/-- The credential payload the provider double returns in the bind tests. -/
def testPayload : String := "\x7b\"test\": \"testingcreds\"\x7d"

/-- A provider double returning success for every call, as in the
`bind successfully` test case. -/
def rtAllOk : MockRuntime :=
  { createSandboxRes := Except.ok ("service-account-1", "location")
    copySecretsRes := none
    stateIsPresentRes := Except.ok false
    runBundleRes := Except.ok "bundle-pod"
    watchRes := none
    copyStateRes := none
    extractCredsRes := Except.ok testPayload
    createExtractedCredentialRes := none
    deleteExtractedCredentialRes := none }

/-- The `failed to createsandbox` double. -/
def rtSandboxFail : MockRuntime :=
  { rtAllOk with createSandboxRes := Except.error "create sandbox failed" }

/-- The `unbind fails to delete extracted credentials` double. -/
def rtDeleteCredFail : MockRuntime :=
  { rtAllOk with deleteExtractedCredentialRes := some "failed to delete credentials" }

/-- The `bind fails to create extracted credentials` double. -/
def rtCreateCredFail : MockRuntime :=
  { rtAllOk with createExtractedCredentialRes := some "failed to create credentials" }

/-- The config-map store of the runtime state test: one blob named `foo` in
namespace `nsTarget`. -/
def storeTest : ConfigMapStore := [(("nsTarget", "foo"), "state-data")]

/-- The state manager of the runtime state test. -/
def smTest : StateManager := { nsTarget := "nsTarget", mountLocation := "/tmp/foo" }

/-! ### Run-structure lemmas shared by the claims -/

/-- Structure of every bind run: the channel carries exactly the InProgress
message followed by the captured last status; the last status is terminal;
once the sandbox exists, teardown happens exactly once, strictly before the
final event, which is the terminal emission; on sandbox-creation failure no
teardown happens; the CreateSandbox call always appears in the trace; and
credentials are stored only by a fully successful run. -/
theorem bindRun_master (cfg : ExecutorConfig) (rt : MockRuntime) (si : ServiceInstance)
    (b : String) :
    (bindRun cfg rt si b).messages
        = [inProgressMsg, (bindRun cfg rt si b).exec.lastStatus]
    ∧ ((bindRun cfg rt si b).exec.lastStatus.state = State.stateSucceeded
        ∨ (bindRun cfg rt si b).exec.lastStatus.state = State.stateFailed)
    ∧ (∀ sa loc, rt.createSandboxRes = Except.ok (sa, loc) →
        ((bindRun cfg rt si b).events.dropLast.countP Event.isDestroy = 1
         ∧ (bindRun cfg rt si b).events.getLast?
             = some (Event.emit ((bindRun cfg rt si b).exec.lastStatus))))
    ∧ (∀ err, rt.createSandboxRes = Except.error err →
        ((bindRun cfg rt si b).events.countP Event.isDestroy = 0
         ∧ (bindRun cfg rt si b).exec.lastStatus.state = State.stateFailed))
    ∧ Event.createSandbox (sandboxExecNs cfg si) [si.context.nspace] ∈ (bindRun cfg rt si b).events
    ∧ (ExtractedCredentials (bindRun cfg rt si b).exec = none
        ∨ ((bindRun cfg rt si b).exec.lastStatus.state = State.stateSucceeded
           ∧ ∃ sa loc pres pn payload creds,
               rt.createSandboxRes = Except.ok (sa, loc)
               ∧ rt.copySecretsRes = none
               ∧ rt.stateIsPresentRes = Except.ok pres
               ∧ rt.runBundleRes = Except.ok pn
               ∧ rt.watchRes = none
               ∧ rt.copyStateRes = none
               ∧ rt.extractCredsRes = Except.ok payload
               ∧ buildExtractedCredentials payload = some creds
               ∧ rt.createExtractedCredentialRes = none
               ∧ ExtractedCredentials (bindRun cfg rt si b).exec = some creds)) := by
  obtain ⟨cs, cp, sip, rb, w, cst, ec, cec, dec⟩ := rt
  cases cs with
  | error e =>
    simp [bindRun, failNoSandboxRun, RunResult.messages, Event.emittedMsg, Event.isDestroy,
      ExtractedCredentials, failedMsg, NewExecutor, List.getLast?]
  | ok sl =>
    obtain ⟨sa, loc⟩ := sl
    cases cp with
    | some e =>
      simp [bindRun, failDestroyRun, RunResult.messages, Event.emittedMsg, Event.isDestroy,
        ExtractedCredentials, failedMsg, NewExecutor, List.getLast?]
    | none =>
      cases sip with
      | error e =>
        simp [bindRun, failDestroyRun, RunResult.messages, Event.emittedMsg, Event.isDestroy,
          ExtractedCredentials, failedMsg, NewExecutor, List.getLast?]
      | ok pres =>
        cases rb with
        | error e =>
          simp [bindRun, failDestroyRun, RunResult.messages, Event.emittedMsg, Event.isDestroy,
            ExtractedCredentials, failedMsg, NewExecutor, List.getLast?]
        | ok pn =>
          cases w with
          | some e =>
            simp [bindRun, failDestroyRun, RunResult.messages, Event.emittedMsg, Event.isDestroy,
              ExtractedCredentials, failedMsg, NewExecutor, List.getLast?]
          | none =>
            cases cst with
            | some e =>
              simp [bindRun, failDestroyRun, RunResult.messages, Event.emittedMsg, Event.isDestroy,
                ExtractedCredentials, failedMsg, NewExecutor, List.getLast?]
            | none =>
              cases ec with
              | error e =>
                simp [bindRun, failDestroyRun, RunResult.messages, Event.emittedMsg, Event.isDestroy,
                  ExtractedCredentials, failedMsg, NewExecutor, List.getLast?]
              | ok payload =>
                cases hbc : buildExtractedCredentials payload with
                | none =>
                  simp [bindRun, failDestroyRun, RunResult.messages, Event.emittedMsg, Event.isDestroy,
                    ExtractedCredentials, failedMsg, NewExecutor, List.getLast?, hbc]
                | some creds =>
                  cases cec with
                  | some e =>
                    simp [bindRun, failDestroyRun, RunResult.messages, Event.emittedMsg, Event.isDestroy,
                      ExtractedCredentials, failedMsg, NewExecutor, List.getLast?, hbc]
                  | none =>
                    refine ⟨?_, ?_, ?_, ?_, ?_, ?_⟩
                    · simp [bindRun, RunResult.messages, Event.emittedMsg, hbc]
                    · simp [bindRun, succeededMsg, hbc]
                    · intro sa' loc' h
                      constructor
                      · simp [bindRun, Event.isDestroy, hbc]
                      · simp [bindRun, List.getLast?, hbc]
                    · intro err h
                      simp at h
                    · simp [bindRun, hbc]
                    · right
                      refine ⟨by simp [bindRun, succeededMsg, hbc], sa, loc, pres, pn, payload, creds,
                        rfl, rfl, rfl, rfl, rfl, rfl, rfl, hbc, rfl, ?_⟩
                      simp [bindRun, ExtractedCredentials, hbc]

/-- Structure of every unbind run, mirroring `bindRun_master` without the
credential clauses. -/
theorem unbindRun_master (cfg : ExecutorConfig) (rt : MockRuntime) (si : ServiceInstance)
    (b : String) :
    (unbindRun cfg rt si b).messages
        = [inProgressMsg, (unbindRun cfg rt si b).exec.lastStatus]
    ∧ ((unbindRun cfg rt si b).exec.lastStatus.state = State.stateSucceeded
        ∨ (unbindRun cfg rt si b).exec.lastStatus.state = State.stateFailed)
    ∧ (∀ sa loc, rt.createSandboxRes = Except.ok (sa, loc) →
        ((unbindRun cfg rt si b).events.dropLast.countP Event.isDestroy = 1
         ∧ (unbindRun cfg rt si b).events.getLast?
             = some (Event.emit ((unbindRun cfg rt si b).exec.lastStatus))))
    ∧ (∀ err, rt.createSandboxRes = Except.error err →
        ((unbindRun cfg rt si b).events.countP Event.isDestroy = 0
         ∧ (unbindRun cfg rt si b).exec.lastStatus.state = State.stateFailed))
    ∧ Event.createSandbox (sandboxExecNs cfg si) [si.context.nspace]
        ∈ (unbindRun cfg rt si b).events := by
  obtain ⟨cs, cp, sip, rb, w, cst, ec, cec, dec⟩ := rt
  cases cs with
  | error e =>
    simp [unbindRun, failNoSandboxRun, RunResult.messages, Event.emittedMsg, Event.isDestroy,
      ExtractedCredentials, failedMsg, NewExecutor, List.getLast?]
  | ok sl =>
    obtain ⟨sa, loc⟩ := sl
    cases cp with
    | some e =>
      simp [unbindRun, failDestroyRun, RunResult.messages, Event.emittedMsg, Event.isDestroy,
        ExtractedCredentials, failedMsg, NewExecutor, List.getLast?]
    | none =>
      cases sip with
      | error e =>
        simp [unbindRun, failDestroyRun, RunResult.messages, Event.emittedMsg, Event.isDestroy,
          ExtractedCredentials, failedMsg, NewExecutor, List.getLast?]
      | ok pres =>
        cases rb with
        | error e =>
          simp [unbindRun, failDestroyRun, RunResult.messages, Event.emittedMsg, Event.isDestroy,
            ExtractedCredentials, failedMsg, NewExecutor, List.getLast?]
        | ok pn =>
          cases w with
          | some e =>
            simp [unbindRun, failDestroyRun, RunResult.messages, Event.emittedMsg, Event.isDestroy,
              ExtractedCredentials, failedMsg, NewExecutor, List.getLast?]
          | none =>
            cases cst with
            | some e =>
              simp [unbindRun, failDestroyRun, RunResult.messages, Event.emittedMsg, Event.isDestroy,
                ExtractedCredentials, failedMsg, NewExecutor, List.getLast?]
            | none =>
              cases dec with
              | some e =>
                simp [unbindRun, RunResult.messages, Event.emittedMsg, Event.isDestroy,
                  succeededMsg, NewExecutor, List.getLast?]
              | none =>
                simp [unbindRun, RunResult.messages, Event.emittedMsg, Event.isDestroy,
                  succeededMsg, NewExecutor, List.getLast?]

/-! ### The claims -/

/-- C1: for every action run (bind or unbind) on a fresh executor, whatever
the provider outcomes, the status channel carries exactly two messages: the
first with State = StateInProgress, the second terminal with State =
StateSucceeded or StateFailed, and nothing after the terminal one. -/
theorem message_sequence_invariant (cfg : ExecutorConfig) (rt : MockRuntime)
    (si : ServiceInstance) (b : String) :
    (∃ m, (bindRun cfg rt si b).messages
          = [{ state := State.stateInProgress, error := none }, m]
        ∧ (m.state = State.stateSucceeded ∨ m.state = State.stateFailed))
    ∧ (∃ m, (unbindRun cfg rt si b).messages
          = [{ state := State.stateInProgress, error := none }, m]
        ∧ (m.state = State.stateSucceeded ∨ m.state = State.stateFailed)) := by
  obtain ⟨h1, h2, -⟩ := bindRun_master cfg rt si b
  obtain ⟨h3, h4, -⟩ := unbindRun_master cfg rt si b
  exact ⟨⟨_, h1, h2⟩, ⟨_, h3, h4⟩⟩

/-- C2: for every bind or unbind run whose CreateSandbox call succeeds,
DestroySandbox is invoked exactly once, strictly before the terminal status
message (the run's last event), whatever the later phases do; and when
CreateSandbox errors, the run emits Failed immediately and DestroySandbox is
never invoked. -/
theorem teardown_always_invariant (cfg : ExecutorConfig) (rt : MockRuntime)
    (si : ServiceInstance) (b : String) :
    (∀ sa loc, rt.createSandboxRes = Except.ok (sa, loc) →
        ((bindRun cfg rt si b).events.dropLast.countP Event.isDestroy = 1
         ∧ (bindRun cfg rt si b).events.getLast?
             = some (Event.emit ((bindRun cfg rt si b).exec.lastStatus))
         ∧ (unbindRun cfg rt si b).events.dropLast.countP Event.isDestroy = 1
         ∧ (unbindRun cfg rt si b).events.getLast?
             = some (Event.emit ((unbindRun cfg rt si b).exec.lastStatus))))
    ∧ (∀ err, rt.createSandboxRes = Except.error err →
        ((bindRun cfg rt si b).events.countP Event.isDestroy = 0
         ∧ (bindRun cfg rt si b).exec.lastStatus.state = State.stateFailed
         ∧ (bindRun cfg rt si b).messages
             = [inProgressMsg, (bindRun cfg rt si b).exec.lastStatus]
         ∧ (unbindRun cfg rt si b).events.countP Event.isDestroy = 0
         ∧ (unbindRun cfg rt si b).exec.lastStatus.state = State.stateFailed
         ∧ (unbindRun cfg rt si b).messages
             = [inProgressMsg, (unbindRun cfg rt si b).exec.lastStatus])) := by
  obtain ⟨hbm, -, hbok, hberr, -, -⟩ := bindRun_master cfg rt si b
  obtain ⟨hum, -, huok, huerr, -⟩ := unbindRun_master cfg rt si b
  constructor
  · intro sa loc h
    exact ⟨(hbok sa loc h).1, (hbok sa loc h).2, (huok sa loc h).1, (huok sa loc h).2⟩
  · intro err h
    exact ⟨(hberr err h).1, (hberr err h).2, hbm, (huerr err h).1, (huerr err h).2, hum⟩

/-- Witness for C2 at the all-success and sandbox-failure provider doubles. -/
theorem teardown_always_invariant_witness :
    ((bindRun cfgDefault rtAllOk siTest "binding-1").events.dropLast.countP Event.isDestroy = 1
     ∧ (bindRun cfgDefault rtAllOk siTest "binding-1").events.getLast?
         = some (Event.emit ((bindRun cfgDefault rtAllOk siTest "binding-1").exec.lastStatus))
     ∧ (unbindRun cfgDefault rtAllOk siTest "binding-1").events.dropLast.countP Event.isDestroy = 1
     ∧ (unbindRun cfgDefault rtAllOk siTest "binding-1").events.getLast?
         = some (Event.emit ((unbindRun cfgDefault rtAllOk siTest "binding-1").exec.lastStatus)))
    ∧ ((bindRun cfgDefault rtSandboxFail siTest "binding-1").events.countP Event.isDestroy = 0
     ∧ (bindRun cfgDefault rtSandboxFail siTest "binding-1").exec.lastStatus.state = State.stateFailed
     ∧ (bindRun cfgDefault rtSandboxFail siTest "binding-1").messages
         = [inProgressMsg, (bindRun cfgDefault rtSandboxFail siTest "binding-1").exec.lastStatus]
     ∧ (unbindRun cfgDefault rtSandboxFail siTest "binding-1").events.countP Event.isDestroy = 0
     ∧ (unbindRun cfgDefault rtSandboxFail siTest "binding-1").exec.lastStatus.state = State.stateFailed
     ∧ (unbindRun cfgDefault rtSandboxFail siTest "binding-1").messages
         = [inProgressMsg, (unbindRun cfgDefault rtSandboxFail siTest "binding-1").exec.lastStatus]) :=
  ⟨(teardown_always_invariant cfgDefault rtAllOk siTest "binding-1").1
      "service-account-1" "location" rfl,
   (teardown_always_invariant cfgDefault rtSandboxFail siTest "binding-1").2
      "create sandbox failed" rfl⟩

/-- C3: an unbind run in which every phase up to and including the watch and
state copy succeeds but DeleteExtractedCredential errors still terminates
with a Succeeded terminal message; the deletion error is not propagated. -/
theorem unbind_credential_deletion_tolerance (cfg : ExecutorConfig) (rt : MockRuntime)
    (si : ServiceInstance) (b sa loc pn derr : String) (pres : Bool)
    (h1 : rt.createSandboxRes = Except.ok (sa, loc))
    (h2 : rt.copySecretsRes = none)
    (h3 : rt.stateIsPresentRes = Except.ok pres)
    (h4 : rt.runBundleRes = Except.ok pn)
    (h5 : rt.watchRes = none)
    (h6 : rt.copyStateRes = none)
    (h7 : rt.deleteExtractedCredentialRes = some derr) :
    (unbindRun cfg rt si b).messages = [inProgressMsg, succeededMsg]
    ∧ LastStatus (unbindRun cfg rt si b).exec = succeededMsg := by
  simp [unbindRun, h1, h2, h3, h4, h5, h6, h7, RunResult.messages, Event.emittedMsg,
    LastStatus, NewExecutor]

/-- Witness for C3 at the delete-credentials-failure double. -/
theorem unbind_credential_deletion_tolerance_witness :
    (unbindRun cfgDefault rtDeleteCredFail siTest "binding-1").messages
        = [inProgressMsg, succeededMsg]
    ∧ LastStatus (unbindRun cfgDefault rtDeleteCredFail siTest "binding-1").exec = succeededMsg :=
  unbind_credential_deletion_tolerance cfgDefault rtDeleteCredFail siTest "binding-1"
    "service-account-1" "location" "bundle-pod" "failed to delete credentials" false
    rfl rfl rfl rfl rfl rfl rfl

/-- C4: a bind run in which credential extraction and decoding succeed but
CreateExtractedCredential errors terminates with a Failed terminal message,
and the executor's LastStatus().Error is non-nil. -/
theorem bind_credential_persistence_fatal (cfg : ExecutorConfig) (rt : MockRuntime)
    (si : ServiceInstance) (b sa loc pn payload cerr : String) (pres : Bool)
    (creds : Credentials)
    (h1 : rt.createSandboxRes = Except.ok (sa, loc))
    (h2 : rt.copySecretsRes = none)
    (h3 : rt.stateIsPresentRes = Except.ok pres)
    (h4 : rt.runBundleRes = Except.ok pn)
    (h5 : rt.watchRes = none)
    (h6 : rt.copyStateRes = none)
    (h7 : rt.extractCredsRes = Except.ok payload)
    (h8 : buildExtractedCredentials payload = some creds)
    (h9 : rt.createExtractedCredentialRes = some cerr) :
    (bindRun cfg rt si b).messages = [inProgressMsg, failedMsg cerr]
    ∧ (LastStatus (bindRun cfg rt si b).exec).error ≠ none := by
  simp [bindRun, h1, h2, h3, h4, h5, h6, h7, h8, h9, failDestroyRun, RunResult.messages,
    Event.emittedMsg, LastStatus, NewExecutor, failedMsg]

/-- Witness for C4 at the create-credentials-failure double. -/
theorem bind_credential_persistence_fatal_witness :
    (bindRun cfgDefault rtCreateCredFail siTest "binding-1").messages
        = [inProgressMsg, failedMsg "failed to create credentials"]
    ∧ (LastStatus (bindRun cfgDefault rtCreateCredFail siTest "binding-1").exec).error ≠ none :=
  bind_credential_persistence_fatal cfgDefault rtCreateCredFail siTest "binding-1"
    "service-account-1" "location" "bundle-pod" testPayload "failed to create credentials" false
    [("test", "testingcreds")] rfl rfl rfl rfl rfl rfl rfl (by decide) rfl

/-- C5: a bind run in which every provider call succeeds yields the message
sequence [InProgress, Succeeded], and ExtractedCredentials() afterwards
equals the JSON-decoded mapping of the byte payload returned by the
provider's ExtractCredentials call. -/
theorem bind_success_roundtrip (cfg : ExecutorConfig) (rt : MockRuntime)
    (si : ServiceInstance) (b sa loc pn payload : String) (pres : Bool) (creds : Credentials)
    (h1 : rt.createSandboxRes = Except.ok (sa, loc))
    (h2 : rt.copySecretsRes = none)
    (h3 : rt.stateIsPresentRes = Except.ok pres)
    (h4 : rt.runBundleRes = Except.ok pn)
    (h5 : rt.watchRes = none)
    (h6 : rt.copyStateRes = none)
    (h7 : rt.extractCredsRes = Except.ok payload)
    (h8 : buildExtractedCredentials payload = some creds)
    (h9 : rt.createExtractedCredentialRes = none) :
    (bindRun cfg rt si b).messages = [inProgressMsg, succeededMsg]
    ∧ ExtractedCredentials (bindRun cfg rt si b).exec = some creds := by
  simp [bindRun, h1, h2, h3, h4, h5, h6, h7, h8, h9, RunResult.messages,
    Event.emittedMsg, ExtractedCredentials, NewExecutor]

/-- Witness for C5: the payload bytes decode to the credentials map with
entry test = testingcreds, and a fully successful bind stores exactly that
mapping. -/
theorem bind_success_roundtrip_witness :
    (bindRun cfgDefault rtAllOk siTest "binding-1").messages = [inProgressMsg, succeededMsg]
    ∧ ExtractedCredentials (bindRun cfgDefault rtAllOk siTest "binding-1").exec
        = some [("test", "testingcreds")] :=
  bind_success_roundtrip cfgDefault rtAllOk siTest "binding-1"
    "service-account-1" "location" "bundle-pod" testPayload false
    [("test", "testingcreds")] rfl rfl rfl rfl rfl rfl rfl (by decide) rfl

/-- C6: for every successful CreateSandbox call, if the execution namespace
is one of the target namespaces no network policy is created in any target
namespace, and otherwise a network policy is created exactly in each target
namespace that differs from the execution namespace. -/
theorem sandbox_network_isolation (pod execNs role : String) (targets : List String) :
    (isNamespaceInTargets execNs targets = true →
        (CreateSandbox pod execNs targets role).policies = [])
    ∧ (isNamespaceInTargets execNs targets = false →
        ∀ t, t ∈ (CreateSandbox pod execNs targets role).policies
            ↔ (t ∈ targets ∧ t ≠ execNs)) := by
  constructor
  · intro h
    simp [CreateSandbox, networkPoliciesFor, h]
  · intro h t
    simp [CreateSandbox, networkPoliciesFor, h, List.mem_filter]

/-- Witness for C6 at the two TestCreateSandbox cases: namespace in target
(foo-ns) and namespace not in target (bar-ns over satoshi-ns/nakamoto-ns). -/
theorem sandbox_network_isolation_witness :
    (CreateSandbox "pod-name" "foo-ns" ["foo-ns"] "edit").policies = []
    ∧ ("satoshi-ns" ∈ (CreateSandbox "pod-name" "bar-ns" ["satoshi-ns", "nakamoto-ns"] "edit").policies
        ↔ ("satoshi-ns" ∈ ["satoshi-ns", "nakamoto-ns"] ∧ "satoshi-ns" ≠ "bar-ns")) :=
  ⟨(sandbox_network_isolation "pod-name" "foo-ns" "edit" ["foo-ns"]).1 (by decide),
   (sandbox_network_isolation "pod-name" "bar-ns" "edit" ["satoshi-ns", "nakamoto-ns"]).2
      (by decide) "satoshi-ns"⟩

/-- C7: every bind or unbind run invokes CreateSandbox with the execution
namespace computed by sandboxExecNs; with SkipCreateNS set this is the target
namespace itself, otherwise a generated name distinct from the target
namespace. -/
theorem skip_create_ns_routing (cfg : ExecutorConfig) (rt : MockRuntime)
    (si : ServiceInstance) (b : String) :
    (Event.createSandbox (sandboxExecNs cfg si) [si.context.nspace]
        ∈ (bindRun cfg rt si b).events
     ∧ Event.createSandbox (sandboxExecNs cfg si) [si.context.nspace]
        ∈ (unbindRun cfg rt si b).events)
    ∧ (cfg.skipCreateNS = true → sandboxExecNs cfg si = si.context.nspace)
    ∧ (cfg.skipCreateNS = false → sandboxExecNs cfg si ≠ si.context.nspace) := by
  refine ⟨⟨(bindRun_master cfg rt si b).2.2.2.2.1, (unbindRun_master cfg rt si b).2.2.2.2⟩, ?_, ?_⟩
  · intro h
    simp [sandboxExecNs, h]
  · intro h
    simp only [sandboxExecNs, h, Bool.false_eq_true, if_false, generatedNamespace]
    intro heq
    have h2 := congrArg String.length heq
    simp [String.length_append] at h2
    exact (by decide : ¬ ("-sandbox-gen".length = 0)) h2

/-- Witness for C7 at the skip and non-skip configurations over the test
instance. -/
theorem skip_create_ns_routing_witness :
    sandboxExecNs cfgSkipNS siTest = siTest.context.nspace
    ∧ sandboxExecNs cfgDefault siTest ≠ siTest.context.nspace
    ∧ Event.createSandbox (sandboxExecNs cfgSkipNS siTest) [siTest.context.nspace]
        ∈ (bindRun cfgSkipNS rtAllOk siTest "binding-1").events :=
  ⟨(skip_create_ns_routing cfgSkipNS rtAllOk siTest "binding-1").2.1 rfl,
   (skip_create_ns_routing cfgDefault rtAllOk siTest "binding-1").2.2 rfl,
   (skip_create_ns_routing cfgSkipNS rtAllOk siTest "binding-1").1.1⟩

/-- C8: after any bind run, either ExtractedCredentials() is nil, or the run
succeeded with every phase after sandbox creation returning success and the
stored credentials are the decoded payload; hence any failing phase after
sandbox creation leaves the credentials unset. -/
theorem bind_credentials_only_on_success (cfg : ExecutorConfig) (rt : MockRuntime)
    (si : ServiceInstance) (b : String) :
    ExtractedCredentials (bindRun cfg rt si b).exec = none
    ∨ ((bindRun cfg rt si b).exec.lastStatus.state = State.stateSucceeded
       ∧ ∃ sa loc pres pn payload creds,
           rt.createSandboxRes = Except.ok (sa, loc)
           ∧ rt.copySecretsRes = none
           ∧ rt.stateIsPresentRes = Except.ok pres
           ∧ rt.runBundleRes = Except.ok pn
           ∧ rt.watchRes = none
           ∧ rt.copyStateRes = none
           ∧ rt.extractCredsRes = Except.ok payload
           ∧ buildExtractedCredentials payload = some creds
           ∧ rt.createExtractedCredentialRes = none
           ∧ ExtractedCredentials (bindRun cfg rt si b).exec = some creds) :=
  (bindRun_master cfg rt si b).2.2.2.2.2

/-- C9: on the zero-value executor (nil status channel), calling
actionFinishedWithError then actionFinishedWithSuccess sends nothing on any
channel (the nil-guard makes both calls safe), and afterwards the extracted
credentials are still nil, the dashboard URL and pod name still empty, and
skipCreateNS still false. -/
theorem zero_value_executor_safe :
    (actionFinishedWithError zeroValueExecutor "ignore").2 = []
    ∧ (actionFinishedWithSuccess (actionFinishedWithError zeroValueExecutor "ignore").1).2 = []
    ∧ ExtractedCredentials
        (actionFinishedWithSuccess (actionFinishedWithError zeroValueExecutor "ignore").1).1 = none
    ∧ DashboardURL
        (actionFinishedWithSuccess (actionFinishedWithError zeroValueExecutor "ignore").1).1 = ""
    ∧ PodName
        (actionFinishedWithSuccess (actionFinishedWithError zeroValueExecutor "ignore").1).1 = ""
    ∧ (actionFinishedWithSuccess (actionFinishedWithError zeroValueExecutor "ignore").1).1.skipCreateNS
        = false := by
  simp [zeroValueExecutor, actionFinishedWithError, actionFinishedWithSuccess,
    ExtractedCredentials, DashboardURL, PodName]

/-- C10: StateIsPresent(name) returns (false, nil) when no state blob named
name exists in the master namespace, surfacing not-found as a non-error, and
(true, nil) when such a blob exists. -/
theorem state_is_present_not_found (s : StateManager) (store : ConfigMapStore) (name : String) :
    ((∀ kv ∈ store, kv.1 ≠ (s.nsTarget, name)) →
        StateIsPresent s store name = Except.ok false)
    ∧ ((∃ kv ∈ store, kv.1 = (s.nsTarget, name)) →
        StateIsPresent s store name = Except.ok true) := by
  constructor
  · intro h
    have hf : store.find? (fun kv => kv.1 = (s.nsTarget, name)) = none := by
      rw [List.find?_eq_none]
      intro x hx
      simpa using h x hx
    simp [StateIsPresent, getConfigMap, hf]
  · rintro ⟨kv, hmem, hkey⟩
    rcases hf : store.find? (fun kv => kv.1 = (s.nsTarget, name)) with _ | kv2
    · rw [List.find?_eq_none] at hf
      exact absurd (by simpa using hkey) (by simpa using hf kv hmem)
    · simp [StateIsPresent, getConfigMap, hf]

/-- Witness for C10 at the runtime state test's store: blob foo present,
blob not_there absent. -/
theorem state_is_present_not_found_witness :
    StateIsPresent smTest storeTest "not_there" = Except.ok false
    ∧ StateIsPresent smTest storeTest "foo" = Except.ok true :=
  ⟨(state_is_present_not_found smTest storeTest "not_there").1 (by decide),
   (state_is_present_not_found smTest storeTest "foo").2
      ⟨(("nsTarget", "foo"), "state-data"), by decide, by decide⟩⟩

end BundleLib
